import Mathlib

/-!
Verification development for `crypto_tracker.py` (CryptoTrack).

A shallow embedding of the tracker: the fetcher
(`fetch_top_50_cryptocurrencies`), the sink updater (`update_excel_sheet`
with `initialize_excel_connection`), teardown (`close_excel_connection`)
and the orchestration loop (`main`), translated from the Python source.

Modelling conventions:
* JSON / spreadsheet cell values are the inductive `JVal`; numbers are
  carried opaquely as `Rat` (the program performs no arithmetic on them),
  `JVal.null` models JSON `null` / Python `None`.
* A coin object from the API payload is `ApiCoin`: every field is an
  `Option JVal`, `none` meaning the key is absent from the JSON object
  (so that `coin["name"]` can raise `KeyError`).
* Python exceptions are the inductive `PyErr`; a fallible step returns
  the mutated state together with `Option PyErr` (the exception that is
  propagating, if any), since mutations made before a `raise` persist.
* The spreadsheet sheet is a journal of cell writes (most recent first),
  `Cells.Clear` resets it to `[]`; `Cells(r, c).Value = v` conses a write.
* Faults of the external world (network, COM automation) are injected
  through explicit environment records (`ApiResponse`, `UpdateEnv`,
  `CloseEnv`); the code itself is deterministic given those.
* Logging is modelled as a `List LogEvent` output; `traceback.print_exc`
  writes to stderr and is not part of the log model.
-/

/-- A JSON / cell value, carried opaquely by the tracker. -/
inductive JVal where
  | str (s : String)
  | num (q : Rat)
  | null
  deriving DecidableEq, Repr

/-- A Python exception class, as far as the tracker distinguishes them. -/
inductive PyErr where
  | requestException
  | httpError
  | jsonDecodeError
  | keyError (key : String)
  | attributeError
  | comError
  deriving DecidableEq, Repr

/-- `requests.RequestException` and its subclasses: plain request failures,
`HTTPError` (from `raise_for_status`) and `requests.exceptions.JSONDecodeError`
(from `response.json()`, a `RequestException` subclass since requests 2.27). -/
def PyErr.isRequestException : PyErr → Bool
  | .requestException => true
  | .httpError => true
  | .jsonDecodeError => true
  | _ => false

/-- Rendering of an exception in an f-string log message (abstracted). -/
def PyErr.msg : PyErr → String
  | .requestException => "RequestException"
  | .httpError => "HTTPError"
  | .jsonDecodeError => "JSONDecodeError"
  | .keyError k => "KeyError: " ++ k
  | .attributeError => "AttributeError"
  | .comError => "com_error"

/-- A log record emitted through the `logging` module. -/
inductive LogEvent where
  | info (msg : String)
  | warn (msg : String)
  | error (msg : String)
  deriving DecidableEq, Repr

/-- One coin object of the API payload.  A field is `none` when the key is
absent from the JSON object. -/
structure ApiCoin where
  name : Option JVal
  symbol : Option JVal
  current_price : Option JVal
  market_cap : Option JVal
  total_volume : Option JVal
  price_change_percentage_24h : Option JVal
  deriving DecidableEq, Repr

/-- One row of the DataFrame built by `fetch_top_50_cryptocurrencies`:
the dict `{"Name": ..., "Symbol": ..., ...}` with its six keys. -/
structure CoinRecord where
  name : JVal
  symbol : JVal
  currentPrice : JVal
  marketCap : JVal
  volume24h : JVal
  priceChange24h : JVal
  deriving DecidableEq, Repr

/-- The DataFrame column names, in dict insertion order. -/
def columns : List String :=
  ["Name", "Symbol", "Current Price (USD)", "Market Capitalization",
   "24h Trading Volume", "24h Price Change (%)"]

/-- The values of a DataFrame row, in column order (what
`enumerate(row, start=1)` iterates over). -/
def recordVals (r : CoinRecord) : List JVal :=
  [r.name, r.symbol, r.currentPrice, r.marketCap, r.volume24h, r.priceChange24h]

/-- `coin[key]`: Python dict subscripting, raising `KeyError` when absent. -/
def pyGet (field : Option JVal) (key : String) : Except PyErr JVal :=
  match field with
  | some v => .ok v
  | none => .error (.keyError key)

/-- Character-wise upper-casing (extensionally `String.toUpper`, stated
over the character list); Python `str.upper` agrees with it on the ASCII
symbols the API returns. -/
def strUpper (s : String) : String :=
  ⟨s.data.map Char.toUpper⟩

/-- `x.upper()`: succeeds only on a string (else `AttributeError`). -/
def pyUpper (v : JVal) : Except PyErr JVal :=
  match v with
  | .str s => .ok (.str (strUpper s))
  | _ => .error .attributeError

/-- Building one row dict of the fetch loop body, in source evaluation
order: `{"Name": coin["name"], "Symbol": coin["symbol"].upper(), ...}`. -/
def extractCoin (c : ApiCoin) : Except PyErr CoinRecord := do
  let nm ← pyGet c.name "name"
  let symRaw ← pyGet c.symbol "symbol"
  let sym ← pyUpper symRaw
  let price ← pyGet c.current_price "current_price"
  let mcap ← pyGet c.market_cap "market_cap"
  let vol ← pyGet c.total_volume "total_volume"
  let chg ← pyGet c.price_change_percentage_24h "price_change_percentage_24h"
  pure ⟨nm, sym, price, mcap, vol, chg⟩

/-- The `for coin in data: crypto_data.append({...})` loop; the first
exception aborts the whole loop (and, uncaught, the function). -/
def buildRecords : List ApiCoin → Except PyErr (List CoinRecord)
  | [] => .ok []
  | c :: cs => do
    let r ← extractCoin c
    let rs ← buildRecords cs
    pure (r :: rs)

/-- Outcome of the HTTP interaction `requests.get` / `raise_for_status` /
`response.json()`, as seen by the fetcher. -/
inductive ApiResponse where
  | netError
  | httpStatusError
  | badJson
  | success (coins : List ApiCoin)
  deriving DecidableEq, Repr

/-- The body of the `try:` block of `fetch_top_50_cryptocurrencies`:
the value returned, or the exception propagating out of the block,
together with the log lines emitted before the exception. -/
def fetchBody (resp : ApiResponse) : Except PyErr (List CoinRecord) × List LogEvent :=
  match resp with
  | .netError => (.error .requestException, [])
  | .httpStatusError => (.error .httpError, [])
  | .badJson => (.error .jsonDecodeError, [])
  | .success coins =>
    let lenLog := LogEvent.info ("Successfully fetched " ++ toString coins.length
      ++ " cryptocurrencies")
    match buildRecords coins with
    | .error e => (.error e, [lenLog])
    | .ok rs =>
      (.ok rs, [lenLog,
        .info ("DataFrame created with " ++ toString rs.length ++ " rows")])

/-- `fetch_top_50_cryptocurrencies`: the `try` body under
`except requests.RequestException`, which logs and returns an empty
DataFrame; any other exception propagates to the caller. -/
def fetch_top_50_cryptocurrencies (resp : ApiResponse) :
    Except PyErr (List CoinRecord) × List LogEvent :=
  match fetchBody resp with
  | (.ok rs, logs) => (.ok rs, logs)
  | (.error e, logs) =>
    if e.isRequestException then
      (.ok [], logs ++ [.error ("Error fetching cryptocurrency data: " ++ e.msg)])
    else
      (.error e, logs)

/-! ## The sink: sheet cells, CSV file, tracker state -/

/-- The contents of the `CryptocurrencyData` sheet: a journal of cell
writes, most recent first.  `Cells.Clear` resets it to `[]`. -/
abbrev SheetCells : Type := List ((Nat × Nat) × JVal)

/-- `sheet.Cells(r, c).Value = v`. -/
def setCell (s : SheetCells) (r c : Nat) (v : JVal) : SheetCells :=
  ((r, c), v) :: s

/-- Reading back a cell: the most recent write to `(r, c)`, if any. -/
def getCell (s : SheetCells) (r c : Nat) : Option JVal :=
  (List.find? (fun e => e.1 = (r, c)) s).map (·.2)

/-- The row indices of all writes in the journal (with repetitions). -/
def rowsOf (s : SheetCells) : List Nat :=
  s.map (fun e => e.1.1)

/-- The set of rows holding at least one written cell. -/
def usedRows (s : SheetCells) : Finset Nat :=
  (rowsOf s).toFinset

/-- The CSV file produced by `df.to_csv(csv_path, index=False)`: the header
row followed by one row per record.  Cell serialisation to text is
abstracted (the row/column structure is what the file holds). -/
def renderCsv (df : List CoinRecord) : List (List JVal) :=
  columns.map JVal.str :: df.map recordVals

/-- The mutable state of a `CryptocurrencyDataFetcher` instance together
with the files it owns.  `app`, `wb`, `sheetRef` model whether
`self.app` / `self.wb` / `self.sheet` hold a live reference (`None`
otherwise); `sheetCells` is the content of the `CryptocurrencyData`
sheet; `csv` is the CSV file at the derived path (`none` = not yet
created). -/
structure TrackerState where
  app : Bool
  wb : Bool
  sheetRef : Bool
  sheetCells : SheetCells
  csv : Option (List (List JVal))
  deriving DecidableEq, Repr

/-- The state of a freshly constructed fetcher before any connection. -/
def initialState : TrackerState :=
  { app := false, wb := false, sheetRef := false, sheetCells := [], csv := none }

/-- `self.app is None or self.wb is None or self.sheet is None` negated:
whether the Excel connection is fully established. -/
def connOpen (s : TrackerState) : Bool :=
  s.app && s.wb && s.sheetRef

/-! ## Fault environments for the COM automation -/

/-- Faults the Excel/COM world can inject into one `update_excel_sheet`
call.  `initFails` models `win32com.client.Dispatch` raising inside
`initialize_excel_connection` (before any reference is assigned);
`clearFails` a raise from `Cells.Clear` before it takes effect;
`writeBudget = some k` a raise at the `k`-th cell assignment (header
cells first, counted from 0), earlier writes persisting;
`saveFails` a raise from `wb.Save()`. -/
structure UpdateEnv where
  initFails : Bool
  clearFails : Bool
  writeBudget : Option Nat
  saveFails : Bool
  deriving DecidableEq, Repr

/-- An environment injecting no fault. -/
def UpdateEnv.healthy (env : UpdateEnv) : Prop :=
  env.initFails = false ∧ env.clearFails = false ∧
    env.writeBudget = none ∧ env.saveFails = false

instance (env : UpdateEnv) : Decidable env.healthy := by
  unfold UpdateEnv.healthy
  infer_instance

/-- The fault-free environment. -/
def noFault : UpdateEnv :=
  { initFails := false, clearFails := false, writeBudget := none, saveFails := false }

/-! ## initialize_excel_connection -/

/-- `initialize_excel_connection`: on success all three references are
assigned; on failure the error is logged and re-raised (`raise`). -/
def initialize_excel_connection (s : TrackerState) (env : UpdateEnv) :
    TrackerState × List LogEvent × Option PyErr :=
  if env.initFails then
    (s, [.error ("Error initializing Excel connection: " ++ PyErr.msg .comError)],
      some .comError)
  else
    ({ s with app := true, wb := true, sheetRef := true },
      [.info "Excel connection initialized successfully"], none)

/-! ## update_excel_sheet -/

/-- A sheet-writing state: the cell journal plus the remaining write
budget of the fault environment (`none` = no injected fault). -/
structure WState where
  cells : SheetCells
  budget : Option Nat
  deriving DecidableEq, Repr

/-- One `sheet.Cells(r, c).Value = v` assignment under the fault budget. -/
def putCell (w : WState) (r c : Nat) (v : JVal) : WState × Option PyErr :=
  match w.budget with
  | some 0 => (w, some .comError)
  | some (k + 1) => (⟨setCell w.cells r c v, some k⟩, none)
  | none => (⟨setCell w.cells r c v, none⟩, none)

/-- The header loop:
`for col_idx, col_name in enumerate(df.columns, start=1)`. -/
def writeHeader (w : WState) (cols : List String) (colIdx : Nat) :
    WState × Option PyErr :=
  match cols with
  | [] => (w, none)
  | c :: rest =>
    match putCell w 1 colIdx (.str c) with
    | (w', none) => writeHeader w' rest (colIdx + 1)
    | (w', some e) => (w', some e)

/-- The inner data loop: `for col_idx, value in enumerate(row, start=1)`,
writing the cells of row `rowIdx`. -/
def writeRowVals (w : WState) (vals : List JVal) (rowIdx colIdx : Nat) :
    WState × Option PyErr :=
  match vals with
  | [] => (w, none)
  | v :: rest =>
    match putCell w rowIdx colIdx v with
    | (w', none) => writeRowVals w' rest rowIdx (colIdx + 1)
    | (w', some e) => (w', some e)

/-- The outer data loop: `for row_idx, row in df.iterrows()`, the DataFrame
index being `0, 1, ...`, each row written at sheet row `row_idx + 2`. -/
def writeDataRows (w : WState) (recs : List CoinRecord) (i : Nat) :
    WState × Option PyErr :=
  match recs with
  | [] => (w, none)
  | r :: rest =>
    match writeRowVals w (recordVals r) (i + 2) 1 with
    | (w', none) => writeDataRows w' rest (i + 1)
    | (w', some e) => (w', some e)

/-- Header loop followed by data loop (lines 141-147 of the source). -/
def writeAll (w : WState) (df : List CoinRecord) : WState × Option PyErr :=
  match writeHeader w columns 1 with
  | (w', none) => writeDataRows w' df 0
  | (w', some e) => (w', some e)

/-- The log line of the `except` clause of `update_excel_sheet`. -/
def updateErrLog (e : PyErr) : LogEvent :=
  .error ("Error updating Excel sheet: " ++ e.msg)

/-- `update_excel_sheet(df)`: empty-DataFrame guard, lazy connection,
CSV backup, clear, header/data writes, save — every exception of the
`try` body caught and logged by the trailing `except`. -/
def update_excel_sheet (s : TrackerState) (env : UpdateEnv)
    (df : List CoinRecord) : TrackerState × List LogEvent :=
  if df.isEmpty then
    (s, [.warn "DataFrame is empty. Skipping Excel update."])
  else
    match (if connOpen s then (s, ([] : List LogEvent), (none : Option PyErr))
      else initialize_excel_connection s env) with
    | (s1, l1, some e) => (s1, l1 ++ [updateErrLog e])
    | (s1, l1, none) =>
      let s2 := { s1 with csv := some (renderCsv df) }
      let l2 := l1 ++ [.info "Data also saved to CSV"]
      if env.clearFails then (s2, l2 ++ [updateErrLog .comError])
      else
        let s3 := { s2 with sheetCells := [] }
        match writeAll ⟨[], env.writeBudget⟩ df with
        | (w, some e) =>
          ({ s3 with sheetCells := w.cells }, l2 ++ [updateErrLog e])
        | (w, none) =>
          let s4 := { s3 with sheetCells := w.cells }
          if env.saveFails then (s4, l2 ++ [updateErrLog .comError])
          else (s4, l2 ++ [.info "Excel sheet updated successfully!"])

/-- The sheet contents produced by a fault-free write of `df` into a
cleared sheet (the clean-cycle image of the write protocol). -/
def freshSheet (df : List CoinRecord) : SheetCells :=
  (writeAll ⟨[], none⟩ df).1.cells

/-! ## close_excel_connection -/

/-- Faults the COM world can inject into one `close_excel_connection`
call: `wb.Save()`, `wb.Close()` or `app.Quit()` raising. -/
structure CloseEnv where
  saveFails : Bool
  closeFails : Bool
  quitFails : Bool
  deriving DecidableEq, Repr

/-- `close_excel_connection`: the `try` body (save/close the workbook if
`self.wb` is truthy, quit the application if `self.app` is truthy), its
`except` logging any error, and the `finally` clearing all three
references unconditionally. -/
def close_excel_connection (s : TrackerState) (env : CloseEnv) :
    TrackerState × List LogEvent :=
  let wbErr : Option PyErr :=
    if s.wb then
      if env.saveFails then some .comError
      else if env.closeFails then some .comError
      else none
    else none
  let bodyErr : Option PyErr :=
    match wbErr with
    | some e => some e
    | none => if s.app && env.quitFails then some .comError else none
  let logs : List LogEvent :=
    match bodyErr with
    | some e => [.error ("Error closing Excel connection: " ++ e.msg)]
    | none => []
  ({ s with app := false, wb := false, sheetRef := false }, logs)

/-- Iterated teardown: `close_excel_connection` called `n` times in a row
under the same environment. -/
def closeIter : Nat → TrackerState → CloseEnv → TrackerState
  | 0, s, _ => s
  | n + 1, s, env => closeIter n (close_excel_connection s env).1 env

/-! ## The orchestration loop (`main`) -/

/-- The external world of one loop iteration: the API outcome and the
COM faults of this cycle's `update_excel_sheet` call. -/
structure CycleEnv where
  api : ApiResponse
  upd : UpdateEnv
  deriving DecidableEq, Repr

/-- One iteration of `while True` in `main` (the inner `try`/`except`):
fetch, update, sleep 30 — or, when an exception escapes the body, log it
and sleep 60.  Returns the new state, the seconds slept, and the log. -/
def runCycle (s : TrackerState) (env : CycleEnv) :
    TrackerState × Nat × List LogEvent :=
  match fetch_top_50_cryptocurrencies env.api with
  | (.ok df, lf) =>
    let (s', lu) := update_excel_sheet s env.upd df
    (s', 30, lf ++ lu ++ [.info "Waiting 5 minutes before next update..."])
  | (.error e, lf) =>
    (s, 60, lf ++ [.error ("Error in main loop: " ++ e.msg)])

/-- The loop run over a finite schedule of cycle environments (the
infinite `while True` observed for finitely many iterations). -/
def runCycles (s : TrackerState) : List CycleEnv → TrackerState × List LogEvent
  | [] => (s, [])
  | env :: rest =>
    let (s1, l1) := runCycle s env
    let (s2, l2) := runCycles s1 rest
    (s2, l1.2 ++ l2)

/-- `main`: initial connection inside the outer `try` (a failure skips the
loop entirely and is logged by the outer `except`), then the loop over
the schedule, then — on external interruption, modelled as the end of the
schedule — the `finally` block closing the connection.  The `Bool`
records whether the loop was entered. -/
def runMain (initEnv : UpdateEnv) (envs : List CycleEnv) (cEnv : CloseEnv) :
    TrackerState × List LogEvent × Bool :=
  match initialize_excel_connection initialState initEnv with
  | (s1, l1, some e) =>
    let (s2, l2) := close_excel_connection s1 cEnv
    (s2, l1 ++ [.error ("Initialization error: " ++ e.msg)] ++ l2, false)
  | (s1, l1, none) =>
    let (s2, l2) := runCycles s1 envs
    let (s3, l3) := close_excel_connection s2 cEnv
    (s3, l1 ++ l2 ++ l3, true)

/-! ## Derived notions used by the statements -/

/-- A well-formed coin object: all six keys present, the symbol a string
(so that `.upper()` succeeds). -/
def wfCoin (c : ApiCoin) : Bool :=
  c.name.isSome &&
    (match c.symbol with | some (.str _) => true | _ => false) &&
    c.current_price.isSome && c.market_cap.isSome &&
    c.total_volume.isSome && c.price_change_percentage_24h.isSome

/-- The record extracted from a coin: all six fields are the coin's
values, the symbol upper-cased. -/
def coinRec (c : ApiCoin) (r : CoinRecord) : Prop :=
  c.name = some r.name ∧
  (∃ s, c.symbol = some (.str s) ∧ r.symbol = .str (strUpper s)) ∧
  c.current_price = some r.currentPrice ∧
  c.market_cap = some r.marketCap ∧
  c.total_volume = some r.volume24h ∧
  c.price_change_percentage_24h = some r.priceChange24h

/-- Closed form of the journal contribution of writing `vals` along row
`r` starting at column `j` (most recent write first). -/
def rowCellsJ (vals : List JVal) (r j : Nat) : SheetCells :=
  match vals with
  | [] => []
  | v :: rest => rowCellsJ rest r (j + 1) ++ [((r, j), v)]

/-- Closed form of the journal contribution of the data loop: record `k`
of `recs` written along row `i + 2 + k`. -/
def dataCellsJ (recs : List CoinRecord) (i : Nat) : SheetCells :=
  match recs with
  | [] => []
  | r :: rest => dataCellsJ rest (i + 1) ++ rowCellsJ (recordVals r) (i + 2) 1

/-! ## Concrete sample data for witnesses and counterexamples -/

/-- A sample well-formed coin (the spec's Bitcoin example). -/
def btcCoin : ApiCoin :=
  ⟨some (.str "Bitcoin"), some (.str "btc"), some (.num 50000),
    some (.num 1000000000000), some (.num 50000000000), some (.num (5/2))⟩

/-- A coin object whose payload lacks the `name` key. -/
def noNameCoin : ApiCoin :=
  ⟨none, some (.str "btc"), some (.num 50000),
    some (.num 1000000000000), some (.num 50000000000), some (.num (5/2))⟩

/-- The record `fetch` extracts from `btcCoin`. -/
def btcRecord : CoinRecord :=
  ⟨.str "Bitcoin", .str "BTC", .num 50000,
    .num 1000000000000, .num 50000000000, .num (5/2)⟩

/-! ## Lemmas about the fetcher -/

theorem extractCoin_of_wf (c : ApiCoin) (h : wfCoin c = true) :
    ∃ r, extractCoin c = .ok r ∧ coinRec c r := by
  obtain ⟨nm, sym, price, mcap, vol, chg⟩ := c
  rcases sym with _ | (s | q | ⟨⟩) <;> rcases nm with _ | nmv <;>
    rcases price with _ | pricev <;> rcases mcap with _ | mcapv <;>
    rcases vol with _ | volv <;> rcases chg with _ | chgv <;>
    simp [wfCoin] at h
  exact ⟨⟨nmv, .str (strUpper s), pricev, mcapv, volv, chgv⟩, rfl,
    rfl, ⟨s, rfl, rfl⟩, rfl, rfl, rfl, rfl⟩

theorem buildRecords_of_wf (coins : List ApiCoin)
    (h : ∀ c ∈ coins, wfCoin c = true) :
    ∃ recs, buildRecords coins = .ok recs ∧ List.Forall₂ coinRec coins recs := by
  induction coins with
  | nil => exact ⟨[], rfl, List.Forall₂.nil⟩
  | cons c cs ih =>
    obtain ⟨r, hr, hrel⟩ := extractCoin_of_wf c (h c (by simp))
    obtain ⟨recs, hrecs, hrels⟩ := ih (fun x hx => h x (by simp [hx]))
    refine ⟨r :: recs, ?_, List.Forall₂.cons hrel hrels⟩
    simp only [buildRecords]
    rw [hr, hrecs]
    rfl

/-! ## Lemmas about the fault-free write protocol -/

theorem writeRowVals_none (vals : List JVal) :
    ∀ (cells : SheetCells) (r j : Nat),
      writeRowVals ⟨cells, none⟩ vals r j =
        (⟨rowCellsJ vals r j ++ cells, none⟩, none) := by
  induction vals with
  | nil => intro cells r j; simp [writeRowVals, rowCellsJ]
  | cons v rest ih =>
    intro cells r j
    simp [writeRowVals, putCell, setCell, rowCellsJ, ih]

theorem writeHeader_none (cols : List String) :
    ∀ (cells : SheetCells) (j : Nat),
      writeHeader ⟨cells, none⟩ cols j =
        (⟨rowCellsJ (cols.map JVal.str) 1 j ++ cells, none⟩, none) := by
  induction cols with
  | nil => intro cells j; simp [writeHeader, rowCellsJ]
  | cons c rest ih =>
    intro cells j
    simp [writeHeader, putCell, setCell, rowCellsJ, ih]

theorem writeDataRows_none (recs : List CoinRecord) :
    ∀ (cells : SheetCells) (i : Nat),
      writeDataRows ⟨cells, none⟩ recs i =
        (⟨dataCellsJ recs i ++ cells, none⟩, none) := by
  induction recs with
  | nil => intro cells i; simp [writeDataRows, dataCellsJ]
  | cons r rest ih =>
    intro cells i
    simp [writeDataRows, writeRowVals_none, dataCellsJ, ih]

theorem writeAll_none (cells : SheetCells) (df : List CoinRecord) :
    writeAll ⟨cells, none⟩ df =
      (⟨dataCellsJ df 0 ++ (rowCellsJ (columns.map JVal.str) 1 1 ++ cells), none⟩,
        none) := by
  simp [writeAll, writeHeader_none, writeDataRows_none]

theorem freshSheet_eq (df : List CoinRecord) :
    freshSheet df = dataCellsJ df 0 ++ rowCellsJ (columns.map JVal.str) 1 1 := by
  simp [freshSheet, writeAll_none]

theorem mem_rowCellsJ (vals : List JVal) :
    ∀ (r j : Nat) (x : (Nat × Nat) × JVal), x ∈ rowCellsJ vals r j →
      x.1.1 = r ∧ j ≤ x.1.2 := by
  induction vals with
  | nil => intro r j x hx; simp [rowCellsJ] at hx
  | cons v rest ih =>
    intro r j x hx
    simp only [rowCellsJ, List.mem_append, List.mem_singleton] at hx
    rcases hx with hx | hx
    · obtain ⟨h1, h2⟩ := ih r (j + 1) x hx
      exact ⟨h1, by omega⟩
    · subst hx; exact ⟨rfl, le_refl j⟩

theorem mem_dataCellsJ (recs : List CoinRecord) :
    ∀ (i : Nat) (x : (Nat × Nat) × JVal), x ∈ dataCellsJ recs i →
      i + 2 ≤ x.1.1 := by
  induction recs with
  | nil => intro i x hx; simp [dataCellsJ] at hx
  | cons r rest ih =>
    intro i x hx
    simp only [dataCellsJ, List.mem_append] at hx
    rcases hx with hx | hx
    · have := ih (i + 1) x hx; omega
    · exact (mem_rowCellsJ _ _ _ _ hx).1 ▸ le_refl _

theorem rowsOf_rowCellsJ (vals : List JVal) :
    ∀ (r j : Nat), rowsOf (rowCellsJ vals r j) = List.replicate vals.length r := by
  induction vals with
  | nil => intro r j; simp [rowCellsJ, rowsOf]
  | cons v rest ih =>
    intro r j
    simp [rowCellsJ, rowsOf, List.map_append, List.replicate_succ'] at ih ⊢
    exact ih r (j + 1)

theorem rowsOf_append (a b : SheetCells) : rowsOf (a ++ b) = rowsOf a ++ rowsOf b :=
  List.map_append _ a b

theorem recordVals_length (r : CoinRecord) : (recordVals r).length = 6 := rfl

theorem toFinset_rowsOf_dataCellsJ (recs : List CoinRecord) :
    ∀ i : Nat, (rowsOf (dataCellsJ recs i)).toFinset =
      Finset.Ico (i + 2) (i + 2 + recs.length) := by
  induction recs with
  | nil => intro i; simp [dataCellsJ, rowsOf]
  | cons r rest ih =>
    intro i
    rw [show dataCellsJ (r :: rest) i =
        dataCellsJ rest (i + 1) ++ rowCellsJ (recordVals r) (i + 2) 1 from rfl,
      rowsOf_append, List.toFinset_append, ih (i + 1), rowsOf_rowCellsJ,
      recordVals_length]
    ext x
    simp only [Finset.mem_union, Finset.mem_Ico, List.mem_toFinset,
      List.mem_replicate, List.length_cons]
    omega

theorem usedRows_freshSheet (df : List CoinRecord) :
    usedRows (freshSheet df) = Finset.Ico 1 (df.length + 2) := by
  rw [usedRows, freshSheet_eq, rowsOf_append, List.toFinset_append,
    toFinset_rowsOf_dataCellsJ, rowsOf_rowCellsJ]
  ext x
  simp only [Finset.mem_union, Finset.mem_Ico, List.mem_toFinset,
    List.mem_replicate, List.length_map, columns, List.length_cons,
    List.length_nil]
  omega

theorem card_usedRows_freshSheet (df : List CoinRecord) :
    (usedRows (freshSheet df)).card = 1 + df.length := by
  rw [usedRows_freshSheet, Nat.card_Ico]
  omega

theorem find?_rowCellsJ_none (vals : List JVal) (r j r' c' : Nat)
    (h : r' ≠ r ∨ c' < j) :
    List.find? (fun e => e.1 = (r', c')) (rowCellsJ vals r j) = none := by
  rw [List.find?_eq_none]
  intro x hx
  obtain ⟨h1, h2⟩ := mem_rowCellsJ vals r j x hx
  simp only [decide_eq_true_eq]
  intro heq
  rw [heq] at h1 h2
  simp at h1 h2
  rcases h with h | h
  · exact h h1
  · omega

theorem find?_dataCellsJ_none (recs : List CoinRecord) (i r' c' : Nat)
    (h : r' < i + 2) :
    List.find? (fun e => e.1 = (r', c')) (dataCellsJ recs i) = none := by
  rw [List.find?_eq_none]
  intro x hx
  have hrow := mem_dataCellsJ recs i x hx
  simp only [decide_eq_true_eq]
  intro heq
  rw [heq] at hrow
  simp at hrow
  omega

theorem getCell_append (a b : SheetCells) (r c : Nat)
    (h : List.find? (fun e => e.1 = (r, c)) a = none) :
    getCell (a ++ b) r c = getCell b r c := by
  unfold getCell
  rw [List.find?_append, h]
  rfl

theorem getCell_rowCellsJ (vals : List JVal) :
    ∀ (j : Nat) (t : SheetCells) (r m : Nat), m < vals.length →
      getCell (rowCellsJ vals r j ++ t) r (j + m) = vals.get? m := by
  induction vals with
  | nil => intro j t r m hm; simp at hm
  | cons v rest ih =>
    intro j t r m hm
    rw [show rowCellsJ (v :: rest) r j ++ t =
        rowCellsJ rest r (j + 1) ++ (((r, j), v) :: t) by
      simp [rowCellsJ]]
    cases m with
    | zero =>
      rw [getCell_append _ _ _ _
        (find?_rowCellsJ_none rest r (j + 1) r (j + 0) (Or.inr (by omega)))]
      simp [getCell, List.find?_cons_of_pos]
    | succ m' =>
      rw [show j + (m' + 1) = (j + 1) + m' by omega]
      rw [ih (j + 1) (((r, j), v) :: t) r m' (by simpa using hm)]
      simp

theorem getCell_dataCellsJ (recs : List CoinRecord) :
    ∀ (i : Nat) (t : SheetCells) (k : Nat) (hk : k < recs.length) (m : Nat),
      m < 6 →
      getCell (dataCellsJ recs i ++ t) (i + 2 + k) (1 + m) =
        (recordVals (recs.get ⟨k, hk⟩)).get? m := by
  induction recs with
  | nil => intro i t k hk; simp at hk
  | cons r rest ih =>
    intro i t k hk m hm
    rw [show dataCellsJ (r :: rest) i ++ t =
        dataCellsJ rest (i + 1) ++ (rowCellsJ (recordVals r) (i + 2) 1 ++ t) by
      simp [dataCellsJ]]
    cases k with
    | zero =>
      rw [getCell_append _ _ _ _
        (find?_dataCellsJ_none rest (i + 1) (i + 2 + 0) (1 + m) (by omega))]
      rw [show i + 2 + 0 = i + 2 by omega]
      rw [getCell_rowCellsJ (recordVals r) 1 t (i + 2) m
        (by rw [recordVals_length]; omega)]
      simp
    | succ k' =>
      rw [show i + 2 + (k' + 1) = (i + 1) + 2 + k' by omega]
      rw [ih (i + 1) (rowCellsJ (recordVals r) (i + 2) 1 ++ t) k'
        (by simpa using hk) m hm]
      simp

theorem getCell_freshSheet_header (df : List CoinRecord) (m : Nat) (hm : m < 6) :
    getCell (freshSheet df) 1 (1 + m) = (columns.map JVal.str).get? m := by
  rw [freshSheet_eq]
  rw [getCell_append _ _ _ _ (find?_dataCellsJ_none df 0 1 (1 + m) (by omega))]
  have h := getCell_rowCellsJ (columns.map JVal.str) 1 [] 1 m
    (by simp [columns]; omega)
  simpa using h

theorem getCell_freshSheet_data (df : List CoinRecord) (k : Nat)
    (hk : k < df.length) (m : Nat) (hm : m < 6) :
    getCell (freshSheet df) (2 + k) (1 + m) =
      (recordVals (df.get ⟨k, hk⟩)).get? m := by
  rw [freshSheet_eq]
  have h := getCell_dataCellsJ df 0 (rowCellsJ (columns.map JVal.str) 1 1) k hk m hm
  rw [show (0 : Nat) + 2 + k = 2 + k by omega] at h
  exact h

/-! ## Lemmas about update_excel_sheet -/

theorem update_initFail_eq (s : TrackerState) (env : UpdateEnv)
    (df : List CoinRecord) (hdf : df ≠ []) (hc : connOpen s = false)
    (hi : env.initFails = true) :
    update_excel_sheet s env df =
      (s, [.error ("Error initializing Excel connection: " ++ PyErr.msg .comError),
        updateErrLog .comError]) := by
  have hne : df.isEmpty = false := by simpa [List.isEmpty_iff] using hdf
  simp [update_excel_sheet, hne, hc, initialize_excel_connection, hi]

theorem update_run_eq (s : TrackerState) (env : UpdateEnv) (df : List CoinRecord)
    (hdf : df ≠ []) (h : connOpen s = true ∨ env.initFails = false) :
    update_excel_sheet s env df =
      ({ app := true, wb := true, sheetRef := true,
         sheetCells := if env.clearFails then s.sheetCells
           else (writeAll ⟨[], env.writeBudget⟩ df).1.cells,
         csv := some (renderCsv df) },
       (if connOpen s then []
         else [.info "Excel connection initialized successfully"]) ++
         [.info "Data also saved to CSV"] ++
         (if env.clearFails then [updateErrLog .comError]
          else match (writeAll ⟨[], env.writeBudget⟩ df).2 with
            | some e => [updateErrLog e]
            | none => if env.saveFails then [updateErrLog .comError]
              else [.info "Excel sheet updated successfully!"])) := by
  have hne : df.isEmpty = false := by simpa [List.isEmpty_iff] using hdf
  obtain ⟨a, w, sr, cells, csvv⟩ := s
  rcases hw : writeAll ⟨[], env.writeBudget⟩ df with ⟨wst, werr⟩
  by_cases hc : connOpen ⟨a, w, sr, cells, csvv⟩ = true
  · have hc' := hc
    simp only [connOpen, Bool.and_eq_true] at hc'
    obtain ⟨⟨ha, hwb⟩, hsr⟩ := hc'
    subst ha hwb hsr
    by_cases hcl : env.clearFails = true
    · simp [update_excel_sheet, hne, hc, hcl]
    · simp only [Bool.not_eq_true] at hcl
      cases werr with
      | some e => simp [update_excel_sheet, hne, hc, hcl, hw]
      | none =>
        by_cases hsv : env.saveFails = true
        · simp [update_excel_sheet, hne, hc, hcl, hw, hsv]
        · simp only [Bool.not_eq_true] at hsv
          simp [update_excel_sheet, hne, hc, hcl, hw, hsv]
  · have hi : env.initFails = false := by
      rcases h with h | h
      · exact absurd h hc
      · exact h
    simp only [Bool.not_eq_true] at hc
    by_cases hcl : env.clearFails = true
    · simp [update_excel_sheet, hne, hc, hcl, initialize_excel_connection, hi]
    · simp only [Bool.not_eq_true] at hcl
      cases werr with
      | some e =>
        simp [update_excel_sheet, hne, hc, hcl, hw,
          initialize_excel_connection, hi]
      | none =>
        by_cases hsv : env.saveFails = true
        · simp [update_excel_sheet, hne, hc, hcl, hw, hsv,
            initialize_excel_connection, hi]
        · simp only [Bool.not_eq_true] at hsv
          simp [update_excel_sheet, hne, hc, hcl, hw, hsv,
            initialize_excel_connection, hi]

theorem update_empty_eq (s : TrackerState) (env : UpdateEnv) :
    update_excel_sheet s env [] =
      (s, [.warn "DataFrame is empty. Skipping Excel update."]) := rfl

theorem update_healthy_eq (s : TrackerState) (env : UpdateEnv)
    (df : List CoinRecord) (hdf : df ≠ []) (henv : env.healthy) :
    (update_excel_sheet s env df).1 =
      { app := true, wb := true, sheetRef := true,
        sheetCells := freshSheet df, csv := some (renderCsv df) } := by
  obtain ⟨h1, h2, h3, h4⟩ := henv
  rw [update_run_eq s env df hdf (Or.inr h1)]
  simp [h2, h3, freshSheet]

theorem runCycle_ok_eq (s : TrackerState) (env : CycleEnv)
    (df : List CoinRecord) (lf : List LogEvent)
    (h : fetch_top_50_cryptocurrencies env.api = (.ok df, lf)) :
    runCycle s env = ((update_excel_sheet s env.upd df).1, 30,
      lf ++ (update_excel_sheet s env.upd df).2 ++
        [.info "Waiting 5 minutes before next update..."]) := by
  rcases hup : update_excel_sheet s env.upd df with ⟨t, lu⟩
  simp [runCycle, h, hup]

theorem runCycle_error_eq (s : TrackerState) (env : CycleEnv) (e : PyErr)
    (lf : List LogEvent)
    (h : fetch_top_50_cryptocurrencies env.api = (.error e, lf)) :
    runCycle s env = (s, 60, lf ++ [.error ("Error in main loop: " ++ e.msg)]) := by
  simp [runCycle, h]

/-! ## The claims -/

/-- C1: for every well-formed API response of `N ≤ 50` coin objects,
`fetch_top_50_cryptocurrencies` returns a RecordSet of exactly `N`
records, pairwise in the response's order, each record carrying all six
fields of its coin with the symbol upper-cased. -/
theorem c1_fetch_wellformed_response (coins : List ApiCoin)
    (hwf : ∀ c ∈ coins, wfCoin c = true) (hN : coins.length ≤ 50) :
    ∃ recs, (fetch_top_50_cryptocurrencies (.success coins)).1 = .ok recs ∧
      recs.length = coins.length ∧ List.Forall₂ coinRec coins recs := by
  obtain ⟨recs, hrecs, hrel⟩ := buildRecords_of_wf coins hwf
  refine ⟨recs, ?_, hrel.length_eq.symm, hrel⟩
  simp [fetch_top_50_cryptocurrencies, fetchBody, hrecs]

/-- Witness for C1 at the one-coin Bitcoin response. -/
theorem c1_witness :
    ((∀ c ∈ [btcCoin], wfCoin c = true) ∧ [btcCoin].length ≤ 50) ∧
      ∃ recs,
        (fetch_top_50_cryptocurrencies (.success [btcCoin])).1 = .ok recs ∧
        recs.length = [btcCoin].length ∧
        List.Forall₂ coinRec [btcCoin] recs :=
  ⟨⟨by decide, by decide⟩,
    c1_fetch_wellformed_response [btcCoin] (by decide) (by decide)⟩

/-- C3 counterexample: on the malformed (yet decodable) payload whose
single coin object lacks the `name` key, `fetch` does not return an empty
RecordSet — the `KeyError` escapes, since only `requests.RequestException`
is caught. -/
theorem c3_counterexample :
    (fetch_top_50_cryptocurrencies (.success [noNameCoin])).1 =
        .error (.keyError "name") ∧
      (fetch_top_50_cryptocurrencies (.success [noNameCoin])).1 ≠ .ok [] := by
  refine ⟨rfl, ?_⟩
  intro hcontra
  have heval : (Except.error (PyErr.keyError "name") :
      Except PyErr (List CoinRecord)) = .ok [] := hcontra
  exact Except.noConfusion heval

/-- C3 (amended): for every failing API interaction at the HTTP/JSON
layer — network error, timeout, non-success status, or an undecodable
body — `fetch` returns an empty RecordSet, logs the error, and raises
nothing; payloads that decode but lack a required coin field are not
recovered. -/
theorem c3_request_errors_recovered (resp : ApiResponse)
    (h : resp = .netError ∨ resp = .httpStatusError ∨ resp = .badJson) :
    ∃ e : PyErr, e.isRequestException = true ∧
      fetch_top_50_cryptocurrencies resp =
        (.ok [], [.error ("Error fetching cryptocurrency data: " ++ e.msg)]) := by
  rcases h with h | h | h <;> subst h
  · exact ⟨.requestException, rfl, rfl⟩
  · exact ⟨.httpError, rfl, rfl⟩
  · exact ⟨.jsonDecodeError, rfl, rfl⟩

/-- Witness for C3 (amended) at a network error. -/
theorem c3_witness :
    (ApiResponse.netError = ApiResponse.netError ∨
        ApiResponse.netError = ApiResponse.httpStatusError ∨
        ApiResponse.netError = ApiResponse.badJson) ∧
      ∃ e : PyErr, e.isRequestException = true ∧
        fetch_top_50_cryptocurrencies .netError =
          (.ok [], [.error ("Error fetching cryptocurrency data: " ++ e.msg)]) :=
  ⟨Or.inl rfl, c3_request_errors_recovered .netError (Or.inl rfl)⟩

/-- C5: called with an empty RecordSet, `update_excel_sheet` performs no
write at all — the state (sheet, CSV, references) is returned unchanged —
and its only effect is one logged warning. -/
theorem c5_empty_recordset_skips (s : TrackerState) (env : UpdateEnv) :
    update_excel_sheet s env [] =
      (s, [.warn "DataFrame is empty. Skipping Excel update."]) :=
  update_empty_eq s env

/-- C10: with no spreadsheet connection open and lazy initialization
raising, `update_excel_sheet` on a non-empty RecordSet catches the
exception internally: the state (neither CSV nor sheet) is unchanged and
the log shows the initialization error and the update handler's error —
nothing propagates. -/
theorem c10_lazy_init_failure_caught (s : TrackerState) (env : UpdateEnv)
    (df : List CoinRecord) (hdf : df ≠ []) (hc : connOpen s = false)
    (hi : env.initFails = true) :
    (update_excel_sheet s env df).1 = s ∧
      (update_excel_sheet s env df).2 =
        [.error ("Error initializing Excel connection: " ++ PyErr.msg .comError),
          updateErrLog .comError] := by
  rw [update_initFail_eq s env df hdf hc hi]
  exact ⟨rfl, rfl⟩

/-- Witness for C10: fresh tracker, failing initialization, one record. -/
theorem c10_witness :
    ([btcRecord] ≠ [] ∧ connOpen initialState = false ∧
        ({ noFault with initFails := true } : UpdateEnv).initFails = true) ∧
      (update_excel_sheet initialState { noFault with initFails := true }
          [btcRecord]).1 = initialState ∧
      (update_excel_sheet initialState { noFault with initFails := true }
          [btcRecord]).2 =
        [.error ("Error initializing Excel connection: " ++ PyErr.msg .comError),
          updateErrLog .comError] :=
  ⟨⟨by decide, rfl, rfl⟩,
    c10_lazy_init_failure_caught initialState { noFault with initFails := true }
      [btcRecord] (by decide) rfl rfl⟩

/-- C7 counterexample: with no connection open and lazy initialization
failing, `update_excel_sheet` on a non-empty RecordSet does not write the
CSV file at all — so the CSV backup does not succeed independently of the
spreadsheet session's health. -/
theorem c7_counterexample :
    [btcRecord] ≠ [] ∧
      (update_excel_sheet initialState { noFault with initFails := true }
          [btcRecord]).1.csv = none ∧
      (none : Option (List (List JVal))) ≠ some (renderCsv [btcRecord]) := by
  refine ⟨by decide, rfl, ?_⟩
  intro hcontra
  exact Option.noConfusion hcontra

/-- C7 (amended): for every non-empty RecordSet, provided lazy
initialization does not fail, `update_excel_sheet` writes the RecordSet
to the CSV file before any sheet mutation: the CSV holds the new snapshot
whatever clear/write/save faults occur, and when the clear raises the
sheet is still untouched while the CSV was already rewritten. -/
theorem c7_csv_written_before_sheet (s : TrackerState) (env : UpdateEnv)
    (df : List CoinRecord) (hdf : df ≠ []) (hi : env.initFails = false) :
    (update_excel_sheet s env df).1.csv = some (renderCsv df) ∧
      (env.clearFails = true →
        (update_excel_sheet s env df).1.sheetCells = s.sheetCells) := by
  rw [update_run_eq s env df hdf (Or.inr hi)]
  refine ⟨rfl, ?_⟩
  intro hcl
  simp [hcl]

/-- Witness for C7 (amended): fresh tracker, clear fault, one record. -/
theorem c7_witness :
    ([btcRecord] ≠ [] ∧
        ({ noFault with clearFails := true } : UpdateEnv).initFails = false) ∧
      (update_excel_sheet initialState { noFault with clearFails := true }
          [btcRecord]).1.csv = some (renderCsv [btcRecord]) ∧
      (({ noFault with clearFails := true } : UpdateEnv).clearFails = true →
        (update_excel_sheet initialState { noFault with clearFails := true }
            [btcRecord]).1.sheetCells = initialState.sheetCells) :=
  ⟨⟨by decide, rfl⟩,
    c7_csv_written_before_sheet initialState { noFault with clearFails := true }
      [btcRecord] (by decide) rfl⟩

/-- C2: a cycle whose fetch yields an empty RecordSet (the failure path)
leaves the whole tracker state — sheet, CSV and references — unchanged;
a cycle whose fetch succeeds with a non-empty RecordSet, under a healthy
sink, leaves the sheet and CSV holding exactly that RecordSet's snapshot,
whatever the previous sink contents were. -/
theorem c2_sink_reflects_latest (s : TrackerState) (api : ApiResponse)
    (envU : UpdateEnv) (recs : List CoinRecord) :
    ((fetch_top_50_cryptocurrencies api).1 = .ok [] →
      (runCycle s ⟨api, envU⟩).1 = s) ∧
    ((fetch_top_50_cryptocurrencies api).1 = .ok recs → recs ≠ [] →
      envU.healthy →
      (runCycle s ⟨api, envU⟩).1.sheetCells = freshSheet recs ∧
        (runCycle s ⟨api, envU⟩).1.csv = some (renderCsv recs)) := by
  constructor
  · intro hf
    rcases hfp : fetch_top_50_cryptocurrencies api with ⟨res, lf⟩
    rw [hfp] at hf
    have hres : res = Except.ok [] := hf
    subst hres
    rw [runCycle_ok_eq s ⟨api, envU⟩ [] lf hfp]
    rfl
  · intro hf hne henv
    rcases hfp : fetch_top_50_cryptocurrencies api with ⟨res, lf⟩
    rw [hfp] at hf
    have hres : res = Except.ok recs := hf
    subst hres
    rw [runCycle_ok_eq s ⟨api, envU⟩ recs lf hfp]
    dsimp only
    rw [update_healthy_eq s envU recs hne henv]
    exact ⟨rfl, rfl⟩

/-- Witness for C2: a network-error cycle preserves the state; a
successful one-coin cycle rewrites the sink. -/
theorem c2_witness :
    ((fetch_top_50_cryptocurrencies .netError).1 = .ok [] ∧
      (runCycle initialState ⟨.netError, noFault⟩).1 = initialState) ∧
    ((fetch_top_50_cryptocurrencies (.success [btcCoin])).1 = .ok [btcRecord] ∧
      [btcRecord] ≠ [] ∧ noFault.healthy ∧
      ((runCycle initialState ⟨.success [btcCoin], noFault⟩).1.sheetCells =
          freshSheet [btcRecord] ∧
        (runCycle initialState ⟨.success [btcCoin], noFault⟩).1.csv =
          some (renderCsv [btcRecord]))) :=
  ⟨⟨rfl, (c2_sink_reflects_latest initialState .netError noFault []).1 rfl⟩,
    rfl, by decide, by decide,
    (c2_sink_reflects_latest initialState (.success [btcCoin]) noFault
      [btcRecord]).2 rfl (by decide) (by decide)⟩

/-- C4: on a non-empty RecordSet of length `L`, a fault-free update leaves
the sheet with exactly `1 + L` populated rows — row 1 the column names,
row `2 + k` the values of record `k` — and the CSV with the same `1 + L`
rows. -/
theorem c4_update_row_counts (s : TrackerState) (env : UpdateEnv)
    (df : List CoinRecord) (hdf : df ≠ []) (henv : env.healthy) :
    (usedRows (update_excel_sheet s env df).1.sheetCells).card = 1 + df.length ∧
      (update_excel_sheet s env df).1.csv = some (renderCsv df) ∧
      (renderCsv df).length = 1 + df.length ∧
      (∀ m : Nat, m < 6 →
        getCell (update_excel_sheet s env df).1.sheetCells 1 (1 + m) =
          (columns.map JVal.str).get? m) ∧
      (∀ (k : Nat) (hk : k < df.length) (m : Nat), m < 6 →
        getCell (update_excel_sheet s env df).1.sheetCells (2 + k) (1 + m) =
          (recordVals (df.get ⟨k, hk⟩)).get? m) := by
  rw [update_healthy_eq s env df hdf henv]
  refine ⟨card_usedRows_freshSheet df, rfl, ?_, ?_, ?_⟩
  · simp [renderCsv, Nat.add_comm]
  · intro m hm
    exact getCell_freshSheet_header df m hm
  · intro k hk m hm
    exact getCell_freshSheet_data df k hk m hm

/-- Witness for C4 at a one-record update on a fresh tracker. -/
theorem c4_witness :
    ([btcRecord] ≠ [] ∧ noFault.healthy) ∧
      (usedRows (update_excel_sheet initialState noFault
          [btcRecord]).1.sheetCells).card = 1 + [btcRecord].length ∧
      (update_excel_sheet initialState noFault [btcRecord]).1.csv =
        some (renderCsv [btcRecord]) := by
  have h := c4_update_row_counts initialState noFault [btcRecord]
    (by decide) (by decide)
  exact ⟨⟨by decide, by decide⟩, h.1, h.2.1⟩

/-- C6: `update_excel_sheet` is idempotent in the tracker state — under
any fault environment, running the same non-empty RecordSet twice in a
row ends in exactly the state (sheet, CSV, references) of running it
once, because each write clears the sheet before rewriting it. -/
theorem c6_update_idempotent (s : TrackerState) (env : UpdateEnv)
    (df : List CoinRecord) (hdf : df ≠ []) :
    (update_excel_sheet (update_excel_sheet s env df).1 env df).1 =
      (update_excel_sheet s env df).1 := by
  by_cases hreach : connOpen s = true ∨ env.initFails = false
  · have hfix := update_run_eq s env df hdf hreach
    have hconn2 : connOpen (update_excel_sheet s env df).1 = true := by
      rw [hfix]
      rfl
    have hfix2 := update_run_eq (update_excel_sheet s env df).1 env df hdf
      (Or.inl hconn2)
    rw [hfix2, hfix]
    by_cases hcl : env.clearFails = true <;> simp [hcl]
  · obtain ⟨hc, hi⟩ := not_or.mp hreach
    have hc' : connOpen s = false := by simpa using hc
    have hi' : env.initFails = true := by simpa using hi
    have hfix := update_initFail_eq s env df hdf hc' hi'
    have hstate : (update_excel_sheet s env df).1 = s := by rw [hfix]
    rw [hstate, hstate]

/-- Witness for C6 at a one-record update on a fresh tracker. -/
theorem c6_witness :
    [btcRecord] ≠ [] ∧
      (update_excel_sheet (update_excel_sheet initialState noFault
          [btcRecord]).1 noFault [btcRecord]).1 =
        (update_excel_sheet initialState noFault [btcRecord]).1 :=
  ⟨by decide,
    c6_update_idempotent initialState noFault [btcRecord] (by decide)⟩

/-- C8: a loop cycle backs off 60 seconds exactly when the fetch raised
(anything else, including every clear/write/save fault, still ends the
cycle normally with the 30-second sleep); sheet faults are caught and
logged inside `update_excel_sheet`; and `main` skips the loop exactly
when the initial sink connection fails — no cycle error terminates it. -/
theorem c8_errors_never_fatal (s : TrackerState) (env : CycleEnv)
    (ie : UpdateEnv) (envs : List CycleEnv) (ce : CloseEnv)
    (df : List CoinRecord) :
    ((runCycle s env).2.1 = 60 ↔
      ∃ e, (fetch_top_50_cryptocurrencies env.api).1 = .error e) ∧
    ((runCycle s env).2.1 = 30 ∨ (runCycle s env).2.1 = 60) ∧
    (df ≠ [] → (connOpen s = true ∨ env.upd.initFails = false) →
      (env.upd.clearFails = true ∨
        ((writeAll ⟨[], env.upd.writeBudget⟩ df).2).isSome = true ∨
        env.upd.saveFails = true) →
      ∃ e, updateErrLog e ∈ (update_excel_sheet s env.upd df).2) ∧
    ((runMain ie envs ce).2.2 = !ie.initFails) := by
  refine ⟨?_, ?_, ?_, ?_⟩
  · rcases hfp : fetch_top_50_cryptocurrencies env.api with ⟨res, lf⟩
    cases res with
    | ok d =>
      rcases hup : update_excel_sheet s env.upd d with ⟨s', lu⟩
      simp [runCycle, hfp, hup]
    | error e => simp [runCycle, hfp]
  · rcases hfp : fetch_top_50_cryptocurrencies env.api with ⟨res, lf⟩
    cases res with
    | ok d =>
      rcases hup : update_excel_sheet s env.upd d with ⟨s', lu⟩
      exact Or.inl (by simp [runCycle, hfp, hup])
    | error e => exact Or.inr (by simp [runCycle, hfp])
  · intro h1 h2 h3
    by_cases hcl : env.upd.clearFails = true
    · exact ⟨.comError, by rw [update_run_eq s env.upd df h1 h2]; simp [hcl]⟩
    · have hcl' : env.upd.clearFails = false := by simpa using hcl
      rcases hw : (writeAll ⟨[], env.upd.writeBudget⟩ df).2 with _ | e
      · have hsv : env.upd.saveFails = true := by
          rcases h3 with h | h | h
          · exact absurd h hcl
          · rw [hw] at h; simp at h
          · exact h
        exact ⟨.comError,
          by rw [update_run_eq s env.upd df h1 h2]; simp [hcl', hw, hsv]⟩
      · exact ⟨e, by rw [update_run_eq s env.upd df h1 h2]; simp [hcl', hw]⟩
  · cases hie : ie.initFails with
    | false => simp [runMain, initialize_excel_connection, hie]
    | true => simp [runMain, initialize_excel_connection, hie]

/-- Witness for C8: clear-fault update on a fresh tracker logs the caught
error (third conjunct's hypotheses discharged concretely). -/
theorem c8_witness :
    ([btcRecord] ≠ [] ∧
        (connOpen initialState = true ∨
          ({ noFault with clearFails := true } : UpdateEnv).initFails = false) ∧
        (({ noFault with clearFails := true } : UpdateEnv).clearFails = true ∨
          ((writeAll ⟨[], ({ noFault with clearFails := true } :
            UpdateEnv).writeBudget⟩ [btcRecord]).2).isSome = true ∨
          ({ noFault with clearFails := true } : UpdateEnv).saveFails = true)) ∧
      ∃ e, updateErrLog e ∈ (update_excel_sheet initialState
        { noFault with clearFails := true } [btcRecord]).2 :=
  ⟨⟨by decide, Or.inr rfl, Or.inl rfl⟩,
    (c8_errors_never_fatal initialState
        ⟨.netError, { noFault with clearFails := true }⟩ noFault []
        ⟨false, false, false⟩ [btcRecord]).2.2.1
      (by decide) (Or.inr rfl) (Or.inl rfl)⟩

/-- C9: teardown is idempotent and total — one close clears all three
connection references; closing with no connection open changes nothing
and logs no error; and `n + 1` successive closes end in the state of a
single close. -/
theorem c9_close_idempotent (s : TrackerState) (env : CloseEnv) (n : Nat) :
    ((close_excel_connection s env).1.app = false ∧
      (close_excel_connection s env).1.wb = false ∧
      (close_excel_connection s env).1.sheetRef = false) ∧
    (s.app = false → s.wb = false → s.sheetRef = false →
      close_excel_connection s env = (s, [])) ∧
    closeIter (n + 1) s env = (close_excel_connection s env).1 := by
  refine ⟨⟨rfl, rfl, rfl⟩, ?_, ?_⟩
  · intro ha hw hs
    obtain ⟨a, w, sr, cells, csvv⟩ := s
    simp only at ha hw hs
    subst ha hw hs
    rfl
  · induction n generalizing s with
    | zero => rfl
    | succ m ih =>
      rw [show closeIter (m + 1 + 1) s env =
        closeIter (m + 1) (close_excel_connection s env).1 env from rfl]
      rw [ih ((close_excel_connection s env).1)]
      obtain ⟨a, w, sr, cells, csvv⟩ := s
      rfl

/-- Witness for C9: double close of a never-connected tracker. -/
theorem c9_witness :
    (initialState.app = false ∧ initialState.wb = false ∧
        initialState.sheetRef = false) ∧
      close_excel_connection initialState ⟨false, false, false⟩ =
        (initialState, []) ∧
      closeIter 2 initialState ⟨false, false, false⟩ =
        (close_excel_connection initialState ⟨false, false, false⟩).1 := by
  have h := c9_close_idempotent initialState ⟨false, false, false⟩ 1
  exact ⟨⟨rfl, rfl, rfl⟩, h.2.1 rfl rfl rfl, h.2.2⟩

